import Mathlib

/-!
Verification of the combat-log event-extraction engine (`src/main.go`).

The Go source classifies each log line through a collection of matchers
(`pComment`, `pBenefit`, `pHeal`, `pDmg`, ...), each of which first tests a
coarse `regexp.Match` prefilter, then strips the leading timestamp with
`extractTimestamp`, and finally extracts fields with `FindStringSubmatch` on a
named-group regular expression.

The regular expressions of the source use only literals, character classes
(`\d`, `\s`, `\w`, `[\d,]`, `[^ ]`, `.`), greedy and lazy stars, optionals,
alternation, named groups, and the anchors `^` and `$`.  We embed exactly this
fragment: a matcher is a function from the input to the list of all possible
(captures, consumed, rest) outcomes, ordered by the preference order of a
backtracking engine (Go's regexp package documents leftmost-first semantics:
the match is the one a backtracking search would find first).  Taking the head
of the list at the leftmost matching offset therefore reproduces
`FindStringSubmatch`; testing the list for non-emptiness at some offset
reproduces `regexp.Match`.

Strings are modelled as `List Char` (`Str`) so that parsing functions compute
by structural recursion.
-/

namespace CombatLog

set_option maxRecDepth 8000
set_option maxHeartbeats 4000000

abbrev Str := List Char

/-- Character class `\d` of Go regexp: the ASCII digits. -/
def isDigitCh (c : Char) : Bool := '0' ≤ c && c ≤ '9'

/-- Character class `\s` of Go regexp (RE2): `[\t\n\f\r ]`. -/
def isSpaceCh (c : Char) : Bool :=
  c == ' ' || c == '\t' || c == '\n' || c == '\x0c' || c == '\r'

/-- Character class `\w` of Go regexp: `[0-9A-Za-z_]`. -/
def isWordCh (c : Char) : Bool :=
  isDigitCh c || ('a' ≤ c && c ≤ 'z') || ('A' ≤ c && c ≤ 'Z') || c == '_'

/-- The class `.` of Go regexp without the `s` flag: any character but newline. -/
def isDotCh (c : Char) : Bool := c != '\n'

/-- The class `[\d,]` used for numeric captures in the source. -/
def isValCh (c : Char) : Bool := isDigitCh c || c == ','

/-- The class `[^ ]` used for the source and target captures. -/
def isNonSpaceCh (c : Char) : Bool := c != ' '

/-- Decidable prefix test on character lists (`strings.HasPrefix`, and the
literal steps of the regex engine). -/
def isPfx : Str → Str → Bool
  | [], _ => true
  | _ :: _, [] => false
  | a :: as, b :: bs => a == b && isPfx as bs

/-- Captures of named groups: association list from group name to captured text.
Go's `FindStringSubmatch` reports `""` for a group that did not participate in
the match; the engine below inserts an empty binding in that case. -/
abbrev Caps := List (String × Str)

/-- Look up a named capture; unnamed or absent groups read as the empty string,
as with Go's `SubexpIndex` access on a reported match. -/
def capGet (c : Caps) (n : String) : Str :=
  match c.find? (fun x => x.1 == n) with
  | some x => x.2
  | none => []

/-- A matcher: given the captures accumulated so far and the text, return every
possible outcome `(captures, consumed, rest)` in backtracking preference
order. -/
abbrev M := Caps → Str → List (Caps × Str × Str)

/-- The empty regex. -/
def mEps : M := fun c s => [(c, [], s)]

/-- Sequencing of two regex fragments. -/
def mSeq (a b : M) : M := fun c s =>
  (a c s).flatMap fun
    | (c1, u1, s1) => (b c1 s1).map fun
      | (c2, u2, s2) => (c2, u1 ++ u2, s2)

/-- Sequencing of a list of regex fragments. -/
def mSeqs (ms : List M) : M := ms.foldr mSeq mEps

/-- A literal. -/
def mLit (t : Str) : M := fun c s =>
  if isPfx t s then [(c, t, s.drop t.length)] else []

/-- A literal given as a string. -/
def mStr (t : String) : M := mLit t.data

/-- A single-character class. -/
def mCls (p : Char → Bool) : M := fun c s =>
  match s with
  | [] => []
  | ch :: rest => if p ch then [(c, [ch], rest)] else []

/-- Alternation: the left alternative is preferred, as in Go regexp. -/
def mAlt (a b : M) : M := fun c s => a c s ++ b c s

/-- Greedy `?`: taking the fragment is preferred over skipping it. -/
def mOpt (a : M) : M := fun c s => a c s ++ [(c, [], s)]

/-- All splits of a class run, longest taken first (greedy star order). -/
def greedySplits (p : Char → Bool) : Str → List (Str × Str)
  | [] => [([], [])]
  | ch :: rest =>
    if p ch then
      ((greedySplits p rest).map fun
        | (u, v) => (ch :: u, v)) ++ [([], ch :: rest)]
    else [([], ch :: rest)]

/-- All splits of a class run, shortest taken first (lazy star order). -/
def lazySplits (p : Char → Bool) : Str → List (Str × Str)
  | [] => [([], [])]
  | ch :: rest =>
    ([], ch :: rest) ::
      (if p ch then
        (lazySplits p rest).map fun
          | (u, v) => (ch :: u, v)
      else [])

/-- Greedy star over a character class (`\s*`, `.*`). -/
def mStarG (p : Char → Bool) : M := fun c s =>
  (greedySplits p s).map fun
    | (u, v) => (c, u, v)

/-- Lazy star over a character class (`.*?`). -/
def mStarL (p : Char → Bool) : M := fun c s =>
  (lazySplits p s).map fun
    | (u, v) => (c, u, v)

/-- Greedy plus over a character class (`\w+`, `[\d,]+`, `[^ ]+`). -/
def mPlusG (p : Char → Bool) : M := mSeq (mCls p) (mStarG p)

/-- A named capturing group. -/
def mGrp (n : String) (a : M) : M := fun c s =>
  (a c s).map fun
    | (c1, u1, s1) => ((n, u1) :: c1, u1, s1)

/-- An optional named capturing group, such as `(?P<crit>critical )?`: when the
group is skipped it reports the empty capture. -/
def mGrpOpt (n : String) (a : M) : M := fun c s =>
  (mGrp n a) c s ++ [((n, []) :: c, [], s)]

/-- The `$` anchor (end of text: the regexes carry no multiline flag). -/
def mEnd : M := fun c s => if s.isEmpty then [(c, [], s)] else []

/-- Leftmost-first search, as performed by `FindStringSubmatch` on an
unanchored pattern: try each start offset from the left; at the first offset
with a match, return the most preferred one. -/
def findFrom (m : M) : Str → Option (Caps × Str)
  | [] =>
    match m [] [] with
    | (c, _, rest) :: _ => some (c, rest)
    | [] => none
  | ch :: s =>
    match m [] (ch :: s) with
    | (c, _, rest) :: _ => some (c, rest)
    | [] => findFrom m s

/-- Boolean `regexp.Match`. -/
def goMatch (m : M) (s : Str) : Bool := (findFrom m s).isSome

/-- Wall-clock timestamp as extracted by the engine.  The log format carries no
year; Go's `time.Parse` defaults the year, and downstream consumers are
documented as not relying on it, so the embedding keeps the five parsed
fields. -/
structure GoTime where
  month : Nat
  day : Nat
  hour : Nat
  minute : Nat
  second : Nat
deriving Repr, DecidableEq

/-- The zero `time.Time` of Go prints as January 1 of year 1, midnight. -/
def zeroTime : GoTime := ⟨1, 1, 0, 0, 0⟩

/-- Exactly two ASCII digits, as read by `time.Parse` for a zero-padded verb
such as `01`, `02`, `03`, `04`, `05`. -/
def getnum2 : Str → Option (Nat × Str)
  | a :: b :: rest =>
    if isDigitCh a && isDigitCh b then
      some ((a.toNat - 48) * 10 + (b.toNat - 48), rest)
    else none
  | _ => none

/-- Days in each month for the parse-default year, which is leap (Go
`time.Parse` defaults the year when the layout has none). -/
def daysInMonth : Nat → Nat
  | 1 => 31 | 2 => 29 | 3 => 31 | 4 => 30 | 5 => 31 | 6 => 30
  | 7 => 31 | 8 => 31 | 9 => 30 | 10 => 31 | 11 => 30 | 12 => 31
  | _ => 0

/-- Field range checks of Go `time.Parse` for the layouts of the source.  The
hour verb of both layouts is `03`, which Go treats as a 12-hour field and
rejects when the value exceeds 12 ("hour out of range"); a 24-hour field would
be the verb `15`.  Month must be 1..12, the day must fit the month, minute and
second must be below 60. -/
def timeFieldsOk (mo d h mi s : Nat) : Bool :=
  1 ≤ mo && mo ≤ 12 && d ≤ daysInMonth mo && h ≤ 12 && mi < 60 && s < 60

/-- Go `time.Parse` with layout `"01/02 03:04:05 PM"`: month, day, 12-hour
hour, minute, second, then a space and `PM` or `AM` (Go accepts either marker
for the `PM` verb), with nothing after.  `PM` adds 12 to an hour below 12;
`AM` maps hour 12 to 0. -/
def timeParseAmPm (s : Str) : Option GoTime :=
  match getnum2 s with
  | none => none
  | some (mo, r1) =>
    match r1 with
    | '/' :: r2 =>
      match getnum2 r2 with
      | none => none
      | some (d, r3) =>
        match r3 with
        | ' ' :: r4 =>
          match getnum2 r4 with
          | none => none
          | some (h, r5) =>
            match r5 with
            | ':' :: r6 =>
              match getnum2 r6 with
              | none => none
              | some (mi, r7) =>
                match r7 with
                | ':' :: r8 =>
                  match getnum2 r8 with
                  | none => none
                  | some (se, r9) =>
                    if !timeFieldsOk mo d h mi se then none
                    else
                      match r9 with
                      | [' ', 'P', 'M'] =>
                        some ⟨mo, d, if h < 12 then h + 12 else h, mi, se⟩
                      | [' ', 'A', 'M'] =>
                        some ⟨mo, d, if h == 12 then 0 else h, mi, se⟩
                      | _ => none
                | _ => none
            | _ => none
        | _ => none
    | _ => none

/-- Go `time.Parse` with layout `"01/02 03:04:05"`.  The hour verb `03` is
still a 12-hour field: Go rejects hours above 12 even though the source
intends this layout for 24-hour log lines. -/
def timeParsePlain (s : Str) : Option GoTime :=
  match getnum2 s with
  | none => none
  | some (mo, r1) =>
    match r1 with
    | '/' :: r2 =>
      match getnum2 r2 with
      | none => none
      | some (d, r3) =>
        match r3 with
        | ' ' :: r4 =>
          match getnum2 r4 with
          | none => none
          | some (h, r5) =>
            match r5 with
            | ':' :: r6 =>
              match getnum2 r6 with
              | none => none
              | some (mi, r7) =>
                match r7 with
                | ':' :: r8 =>
                  match getnum2 r8 with
                  | none => none
                  | some (se, r9) =>
                    if !timeFieldsOk mo d h mi se then none
                    else
                      match r9 with
                      | [] => some ⟨mo, d, h, mi, se⟩
                      | _ => none
                | _ => none
            | _ => none
        | _ => none
    | _ => none

/-- Two digits, `\d{2}`. -/
def d2 : M := mSeq (mCls isDigitCh) (mCls isDigitCh)

/-- The timestamp pattern of `extractTimestamp`:
`^\[?(\d{2}\/\d{2}\s+\d{2}:\d{2}:\d{2}\s*(?:AM|PM)?)\]? `.  The pattern is
anchored, so `FindStringSubmatch` only ever matches at offset 0. -/
def tsRe : M := mSeqs
  [mOpt (mLit ['[']),
   mGrp "ts" (mSeqs
     [d2, mLit ['/'], d2, mPlusG isSpaceCh,
      d2, mLit [':'], d2, mLit [':'], d2,
      mStarG isSpaceCh, mOpt (mAlt (mStr "AM") (mStr "PM"))]),
   mOpt (mLit [']']), mLit [' ']]

/-- `extractTimestamp` of the source: match the anchored timestamp pattern,
return the line after the matched prefix, and parse the captured token first
with layout `"01/02 03:04:05 PM"`, then with `"01/02 03:04:05"`. -/
def extractTimestamp (line : Str) : Except String (GoTime × Str) :=
  match (tsRe [] line).head? with
  | none => .error "timestamp not found"
  | some (caps, _, remaining) =>
    let timestampStr := capGet caps "ts"
    match timeParseAmPm timestampStr with
    | some t => .ok (t, remaining)
    | none =>
      match timeParsePlain timestampStr with
      | some t => .ok (t, remaining)
      | none => .error ("invalid timestamp format: " ++ String.mk timestampStr)

/-- Digits accumulated into a number; fails at the first non-digit. -/
def digitsValAux : Str → Nat → Option Nat
  | [], acc => some acc
  | c :: rest, acc =>
    if isDigitCh c then digitsValAux rest (acc * 10 + (c.toNat - 48)) else none

/-- Go `strconv.Atoi`: an optional sign followed by at least one digit and
nothing else, within the 64-bit integer range. -/
def goAtoi (s : Str) : Option Int :=
  match s with
  | [] => none
  | '+' :: rest =>
    match rest, digitsValAux rest 0 with
    | _ :: _, some n => if n ≤ 9223372036854775807 then some (Int.ofNat n) else none
    | _, _ => none
  | '-' :: rest =>
    match rest, digitsValAux rest 0 with
    | _ :: _, some n => if n ≤ 9223372036854775808 then some (-(Int.ofNat n)) else none
    | _, _ => none
  | _ =>
    match digitsValAux s 0 with
    | some n => if n ≤ 9223372036854775807 then some (Int.ofNat n) else none
    | none => none

/-- The numeric normalization applied to every captured value field:
`strconv.Atoi(strings.Replace(v, ",", "", -1))` — strip thousands-separator
commas, then parse as an integer. -/
def normalizeValue (s : Str) : Option Int := goAtoi (s.filter fun c => c != ',')

/-- The event categories of the source (`EventType`).  `Unknown` is the zero
value. -/
inductive EventType where
  | Unknown
  | DmgTaken
  | DmgDealt
  | Heal
  | PowerRestored
  | DebuffApplied
  | BuffApplied
  | Interrupt
  | CorruptionRemoved
  | Death
  | Revive
  | CombatStart
  | CombatEnd
  | MobInterrupt
  | TempMoraleLost
  | TempMoraleNotWasted
  | CcBroken
  | Benefit
  | Comment
deriving Repr, DecidableEq

/-- The avoidance classification of the source (`Avoid`).  `UnknownAvoid` is
the zero value; the specification calls it `None`. -/
inductive Avoid where
  | UnknownAvoid
  | Blocked
  | Parried
  | Evaded
  | Resisted
  | Immune
  | Deflected
  | Missed
deriving Repr, DecidableEq

/-- The self-reference sentinel (`selfplaceholder`): substituted whenever the
log refers to the observing player as "you"; replaced later by a collaborator
that knows the player's name. -/
def selfplaceholder : Str := "SELF_REPLACE".data

/-- A parsed log entry (`LogEntry`).  Field defaults are Go's zero values, as
produced by a `&LogEntry{...}` literal that omits them. -/
structure LogEntry where
  Timestamp : GoTime := zeroTime
  etype : EventType := .Unknown
  Source : Str := []
  Target : Str := []
  Skill : Str := []
  Value : Int := 0
  ValueType : Str := []
  Crit : Bool := false
  Dev : Bool := false
  Avoided : Avoid := .UnknownAvoid
  RawMessage : Str := []
deriving Repr, DecidableEq

/-- Matcher outcome: `noMatch` models `ParseNotMatchError` (try the next
matcher); `hard` models every other error (propagated by the dispatcher). -/
inductive PErr where
  | noMatch
  | hard (msg : String)
deriving Repr, DecidableEq

/-- An event matcher (`eventParser`). -/
abbrev Parser := Str → Except PErr LogEntry

/-- Prefilter of `pBenefit`: `regexp.Match("applied a .*benefit", line)`. -/
def benefitPre : M := mSeqs [mStr "applied a ", mStarG isDotCh, mStr "benefit"]

/-- Field pattern of `pBenefit`:
`(?P<source>\w+) applied a (?P<crit>critical )?benefit with (?P<benefitname>.*) on (?P<target>.*).` -/
def benefitRe : M := mSeqs
  [mGrp "source" (mPlusG isWordCh), mStr " applied a ",
   mGrpOpt "crit" (mStr "critical "), mStr "benefit with ",
   mGrp "benefitname" (mStarG isDotCh), mStr " on ",
   mGrp "target" (mStarG isDotCh), mCls isDotCh]

/-- `pComment`: a line beginning with `###` is a comment; only the category is
set. -/
def pComment (line : Str) : Except PErr LogEntry :=
  if isPfx "###".data line then .ok { etype := .Comment }
  else .error .noMatch

/-- `pBenefit`. -/
def pBenefit (line : Str) : Except PErr LogEntry :=
  if !goMatch benefitPre line then .error .noMatch else
  match extractTimestamp line with
  | .error e => .error (.hard ("error parsing timestamp: " ++ e))
  | .ok (t, msg) =>
    match findFrom benefitRe msg with
    | none => .error (.hard ("Failed to parse as Benefit: <" ++ String.mk msg ++ ">"))
    | some r =>
      .ok { RawMessage := line, Timestamp := t,
            Source := capGet r.1 "source", Skill := capGet r.1 "benefitname",
            Target := capGet r.1 "target", Crit := capGet r.1 "crit" != [] }

/-- Prefilter of `pHeal`: `regexp.Match("applied a .*heal", line)`. -/
def healPre : M := mSeqs [mStr "applied a ", mStarG isDotCh, mStr "heal"]

/-- Self-heal pattern of `pHeal`:
`(?P<skill>\w+) applied a (?<crit>critical )?heal to (?P<target>.*) restoring (?P<value>[\d,]+) points to (?P<type>.*).` -/
def selfhealRe : M := mSeqs
  [mGrp "skill" (mPlusG isWordCh), mStr " applied a ",
   mGrpOpt "crit" (mStr "critical "), mStr "heal to ",
   mGrp "target" (mStarG isDotCh), mStr " restoring ",
   mGrp "value" (mPlusG isValCh), mStr " points to ",
   mGrp "type" (mStarG isDotCh), mCls isDotCh]

/-- Incoming-heal pattern of `pHeal`:
`(?P<otherplayer>\w+) applied a (?<crit>critical )?heal with (?P<skill>.*?) to (?P<target>.*) restoring (?P<value>[\d,]+) points to (?P<type>.*).` -/
def incHealRe : M := mSeqs
  [mGrp "otherplayer" (mPlusG isWordCh), mStr " applied a ",
   mGrpOpt "crit" (mStr "critical "), mStr "heal with ",
   mGrp "skill" (mStarL isDotCh), mStr " to ",
   mGrp "target" (mStarG isDotCh), mStr " restoring ",
   mGrp "value" (mPlusG isValCh), mStr " points to ",
   mGrp "type" (mStarG isDotCh), mCls isDotCh]

/-- `pHeal`: the self-heal shape is tried first, then the incoming-heal shape;
a recognized shape whose value field does not normalize to an integer is a
hard failure. -/
def pHeal (line : Str) : Except PErr LogEntry :=
  if !goMatch healPre line then .error .noMatch else
  match extractTimestamp line with
  | .error e => .error (.hard ("error parsing timestamp: " ++ e))
  | .ok (t, msg) =>
    match findFrom selfhealRe msg with
    | some r =>
      match normalizeValue (capGet r.1 "value") with
      | none => .error (.hard "value not convertable to int")
      | some v =>
        .ok { RawMessage := line, Timestamp := t,
              Skill := capGet r.1 "skill", Target := capGet r.1 "target",
              Value := v, ValueType := capGet r.1 "type",
              Crit := capGet r.1 "crit" != [] }
    | none =>
      match findFrom incHealRe msg with
      | none => .error (.hard ("Failed to parse as heal: <" ++ String.mk line ++ ">"))
      | some r =>
        match normalizeValue (capGet r.1 "value") with
        | none => .error (.hard "value not convertable to int")
        | some v =>
          .ok { RawMessage := line, Timestamp := t,
                Skill := capGet r.1 "skill", Target := capGet r.1 "target",
                Source := capGet r.1 "otherplayer",
                Value := v, ValueType := capGet r.1 "type",
                Crit := capGet r.1 "crit" != [] }

/-- Prefilter of `pDmg`: `regexp.Match("scored a .*hit.*for.*damage", line)`. -/
def dmgValPre : M := mSeqs
  [mStr "scored a ", mStarG isDotCh, mStr "hit", mStarG isDotCh,
   mStr "for", mStarG isDotCh, mStr "damage"]

/-- Field pattern of `pDmg`:
`(?P<source>[^ ]+) scored a (partially )?(?<avoided>blocked|parried|evaded)?(?<crit>critical|devastating)? ?hit with (?P<skill>.*?) on (?P<target>.*) for (?P<value>[\d,]+) (?P<type>.*?) ?damage to Morale.` -/
def dmgRe : M := mSeqs
  [mGrp "source" (mPlusG isNonSpaceCh), mStr " scored a ",
   mOpt (mStr "partially "),
   mGrpOpt "avoided" (mAlt (mStr "blocked") (mAlt (mStr "parried") (mStr "evaded"))),
   mGrpOpt "crit" (mAlt (mStr "critical") (mStr "devastating")),
   mOpt (mLit [' ']), mStr "hit with ",
   mGrp "skill" (mStarL isDotCh), mStr " on ",
   mGrp "target" (mStarG isDotCh), mStr " for ",
   mGrp "value" (mPlusG isValCh), mLit [' '],
   mGrp "type" (mStarL isDotCh), mOpt (mLit [' ']),
   mStr "damage to Morale", mCls isDotCh]

/-- `pDmg`: valued damage.  The source's final `switch` statement reads the
`crit` capture — not the `avoided` capture — so its `blocked`/`parried`/
`evaded` arms are unreachable; the transcription preserves this. -/
def pDmg (line : Str) : Except PErr LogEntry :=
  if !goMatch dmgValPre line then .error .noMatch else
  match extractTimestamp line with
  | .error e => .error (.hard ("error parsing timestamp: " ++ e))
  | .ok (t, msg) =>
    match findFrom dmgRe msg with
    | none => .error (.hard ("Failed to parse as dmg dealt: <" ++ String.mk line ++ ">"))
    | some r =>
      match normalizeValue (capGet r.1 "value") with
      | none => .error (.hard "value not convertable to int")
      | some v =>
        .ok { RawMessage := line, Timestamp := t,
              Skill := capGet r.1 "skill", Target := capGet r.1 "target",
              Source := capGet r.1 "source",
              Value := v, ValueType := capGet r.1 "type",
              Crit := capGet r.1 "crit" == "critical".data,
              Dev := capGet r.1 "crit" == "devastating".data,
              Avoided :=
                if capGet r.1 "crit" == "blocked".data then .Blocked
                else if capGet r.1 "crit" == "parried".data then .Parried
                else if capGet r.1 "crit" == "evaded".data then .Evaded
                else .UnknownAvoid }

/-- Prefilter of `pDmgNoValue` (and second prefilter of the same):
`regexp.Match("scored a .*hit", line)`. -/
def dmgPre : M := mSeqs [mStr "scored a ", mStarG isDotCh, mStr "hit"]

/-- Field pattern of `pDmgNoValue`:
`(?P<player>\w+) scored a (partially )?(?<avoided>blocked|parried|evaded)?(?<crit>critical|devastating)? ?hit with (?P<skill>.*?) on (?P<target>[^ ]+).$` -/
def dmgNoValueRe : M := mSeqs
  [mGrp "player" (mPlusG isWordCh), mStr " scored a ",
   mOpt (mStr "partially "),
   mGrpOpt "avoided" (mAlt (mStr "blocked") (mAlt (mStr "parried") (mStr "evaded"))),
   mGrpOpt "crit" (mAlt (mStr "critical") (mStr "devastating")),
   mOpt (mLit [' ']), mStr "hit with ",
   mGrp "skill" (mStarL isDotCh), mStr " on ",
   mGrp "target" (mPlusG isNonSpaceCh), mCls isDotCh, mEnd]

/-- `pDmgNoValue`: a hit with no damage clause.  Declines (no-match) when the
valued-damage pattern also matches; a remaining structural mismatch is a hard
failure.  The same unreachable `switch` on the `crit` capture is preserved. -/
def pDmgNoValue (line : Str) : Except PErr LogEntry :=
  if !goMatch dmgPre line then .error .noMatch else
  if goMatch dmgValPre line then .error .noMatch else
  match extractTimestamp line with
  | .error e => .error (.hard ("error parsing timestamp: " ++ e))
  | .ok (t, msg) =>
    match findFrom dmgNoValueRe msg with
    | none => .error (.hard ("Failed to parse as dmg no value: <" ++ String.mk line ++ ">"))
    | some r =>
      .ok { RawMessage := line, Timestamp := t,
            Skill := capGet r.1 "skill", Target := capGet r.1 "target",
            Source := capGet r.1 "player", Value := 0,
            Crit := capGet r.1 "crit" == "critical".data,
            Dev := capGet r.1 "crit" == "devastating".data,
            Avoided :=
              if capGet r.1 "crit" == "blocked".data then .Blocked
              else if capGet r.1 "crit" == "parried".data then .Parried
              else if capGet r.1 "crit" == "evaded".data then .Evaded
              else .UnknownAvoid }

/-- Prefilter of `pAvoid`: `regexp.Match("tried to use.*", line)`. -/
def avoidPre : M := mSeqs [mStr "tried to use", mStarG isDotCh]

/-- Field pattern of `pAvoid`:
`(?P<player>\w+) tried to use (?P<skill>.*?) on (?P<target>.*) but (?P<reason>.*) the attempt.` -/
def avoidRe : M := mSeqs
  [mGrp "player" (mPlusG isWordCh), mStr " tried to use ",
   mGrp "skill" (mStarL isDotCh), mStr " on ",
   mGrp "target" (mStarG isDotCh), mStr " but ",
   mGrp "reason" (mStarG isDotCh), mStr " the attempt", mCls isDotCh]

/-- `pAvoid`: an avoided attempt; the reason text maps case-sensitively to the
avoidance classification, anything else giving `UnknownAvoid`. -/
def pAvoid (line : Str) : Except PErr LogEntry :=
  if !goMatch avoidPre line then .error .noMatch else
  match extractTimestamp line with
  | .error e => .error (.hard ("error parsing timestamp: " ++ e))
  | .ok (t, msg) =>
    match findFrom avoidRe msg with
    | none => .error (.hard ("Failed to parse as avoid: <" ++ String.mk line ++ ">"))
    | some r =>
      .ok { RawMessage := line, Timestamp := t,
            Skill := capGet r.1 "skill", Target := capGet r.1 "target",
            Source := capGet r.1 "player",
            Avoided :=
              if capGet r.1 "reason" == "blocked".data then .Blocked
              else if capGet r.1 "reason" == "parried".data then .Parried
              else if capGet r.1 "reason" == "evaded".data then .Evaded
              else if capGet r.1 "reason" == "resisted".data then .Resisted
              else .UnknownAvoid }

/-- Prefilter of `pMiss`: `regexp.Match("missed trying to use.*", line)`. -/
def missPre : M := mSeqs [mStr "missed trying to use", mStarG isDotCh]

/-- Field pattern of `pMiss`:
`(?P<player>\w+) missed trying to use (?P<skill>.*?) on (?P<target>.*).` -/
def missRe : M := mSeqs
  [mGrp "player" (mPlusG isWordCh), mStr " missed trying to use ",
   mGrp "skill" (mStarL isDotCh), mStr " on ",
   mGrp "target" (mStarG isDotCh), mCls isDotCh]

/-- `pMiss`. -/
def pMiss (line : Str) : Except PErr LogEntry :=
  if !goMatch missPre line then .error .noMatch else
  match extractTimestamp line with
  | .error e => .error (.hard ("error parsing timestamp: " ++ e))
  | .ok (t, msg) =>
    match findFrom missRe msg with
    | none => .error (.hard ("Failed to parse as avoid: <" ++ String.mk line ++ ">"))
    | some r =>
      .ok { RawMessage := line, Timestamp := t,
            Skill := capGet r.1 "skill", Target := capGet r.1 "target",
            Source := capGet r.1 "player", Avoided := .Missed }

/-- Prefilter of `pTempMoraleLost`:
`regexp.Match("You have lost .* of temporary Morale!", line)`. -/
def tempMoralePre : M := mSeqs
  [mStr "You have lost ", mStarG isDotCh, mStr " of temporary Morale!"]

/-- Field pattern of `pTempMoraleLost`:
`You have lost (?P<value>[\d,]+) points of temporary Morale!` -/
def tempMoraleRe : M := mSeqs
  [mStr "You have lost ", mGrp "value" (mPlusG isValCh),
   mStr " points of temporary Morale!"]

/-- `pTempMoraleLost`. -/
def pTempMoraleLost (line : Str) : Except PErr LogEntry :=
  if !goMatch tempMoralePre line then .error .noMatch else
  match extractTimestamp line with
  | .error e => .error (.hard ("error parsing timestamp: " ++ e))
  | .ok (t, msg) =>
    match findFrom tempMoraleRe msg with
    | none => .error (.hard ("Failed to parse as temp morale lost: <" ++ String.mk msg ++ ">"))
    | some r =>
      match normalizeValue (capGet r.1 "value") with
      | none => .error (.hard "value not convertable to int")
      | some v => .ok { RawMessage := line, Timestamp := t, Value := v }

/-- Prefilter of `pDefeat`: `regexp.Match(".* defeated .*$", line)`. -/
def defeatPre : M := mSeqs
  [mStarG isDotCh, mStr " defeated ", mStarG isDotCh, mEnd]

/-- Field pattern of `pDefeat`: `(?P<victor>.*) defeated (?P<dead>.*)\.` -/
def defeatRe : M := mSeqs
  [mGrp "victor" (mStarG isDotCh), mStr " defeated ",
   mGrp "dead" (mStarG isDotCh), mLit ['.']]

/-- `pDefeat`. -/
def pDefeat (line : Str) : Except PErr LogEntry :=
  if !goMatch defeatPre line then .error .noMatch else
  match extractTimestamp line with
  | .error e => .error (.hard ("error parsing timestamp: " ++ e))
  | .ok (t, msg) =>
    match findFrom defeatRe msg with
    | none => .error (.hard ("Failed to parse as defeat: <" ++ String.mk msg ++ ">"))
    | some r =>
      .ok { RawMessage := line, Timestamp := t,
            Source := capGet r.1 "victor", Target := capGet r.1 "dead" }

/-- Prefilter of `pIncapacitate`:
`regexp.Match("( incapacitated you|You have been incapacitated by misadventure)\.$", line)`. -/
def incapPre : M := mSeqs
  [mAlt (mStr " incapacitated you") (mStr "You have been incapacitated by misadventure"),
   mLit ['.'], mEnd]

/-- Field pattern of `pIncapacitate` for the named-source form:
`(?P<source>.*) incapacitated you\.` -/
def incapRe : M := mSeqs
  [mGrp "source" (mStarG isDotCh), mStr " incapacitated you."]

/-- `pIncapacitate`: the misadventure form targets the self placeholder; the
named form records only the source. -/
def pIncapacitate (line : Str) : Except PErr LogEntry :=
  if !goMatch incapPre line then .error .noMatch else
  match extractTimestamp line with
  | .error e => .error (.hard ("error parsing timestamp: " ++ e))
  | .ok (t, msg) =>
    if msg == "You have been incapacitated by misadventure.".data then
      .ok { RawMessage := line, Timestamp := t, Target := selfplaceholder }
    else
      match findFrom incapRe msg with
      | none => .error (.hard ("Failed to parse as incapacitation: <" ++ String.mk msg ++ ">"))
      | some r =>
        .ok { RawMessage := line, Timestamp := t, Source := capGet r.1 "source" }

/-- Prefilter of `pRevive`: `regexp.Match(".* been revived.$", line)` — the
dot before `$` is unescaped, hence any character. -/
def revivePre : M := mSeqs
  [mStarG isDotCh, mStr " been revived", mCls isDotCh, mEnd]

/-- Field pattern of `pRevive`: `(?P<target>.*) has been revived\.` -/
def reviveRe : M := mSeqs
  [mGrp "target" (mStarG isDotCh), mStr " has been revived."]

/-- `pRevive`. -/
def pRevive (line : Str) : Except PErr LogEntry :=
  if !goMatch revivePre line then .error .noMatch else
  match extractTimestamp line with
  | .error e => .error (.hard ("error parsing timestamp: " ++ e))
  | .ok (t, msg) =>
    if msg == "You have been revived.".data then
      .ok { RawMessage := line, Timestamp := t, Target := selfplaceholder }
    else
      match findFrom reviveRe msg with
      | none => .error (.hard ("Failed to parse as revive: <" ++ String.mk msg ++ ">"))
      | some r =>
        .ok { RawMessage := line, Timestamp := t, Target := capGet r.1 "target" }

/-- Prefilter of `pSuccumb`: `regexp.Match("succumb.*wounds", line)`. -/
def succumbPre : M := mSeqs [mStr "succumb", mStarG isDotCh, mStr "wounds"]

/-- Field pattern of `pSuccumb`: `(?P<target>.*) has succumbed to .* wounds\.` -/
def succumbRe : M := mSeqs
  [mGrp "target" (mStarG isDotCh), mStr " has succumbed to ",
   mStarG isDotCh, mStr " wounds."]

/-- `pSuccumb` (registered under the Revive category by the source). -/
def pSuccumb (line : Str) : Except PErr LogEntry :=
  if !goMatch succumbPre line then .error .noMatch else
  match extractTimestamp line with
  | .error e => .error (.hard ("error parsing timestamp: " ++ e))
  | .ok (t, msg) =>
    if msg == "You succumb to your wounds.".data then
      .ok { RawMessage := line, Timestamp := t, Target := selfplaceholder }
    else
      match findFrom succumbRe msg with
      | none => .error (.hard ("Failed to parse as succumbing to wounds: <" ++ String.mk msg ++ ">"))
      | some r =>
        .ok { RawMessage := line, Timestamp := t, Target := capGet r.1 "target" }

/-- Prefilter of `pCorrRemove`:
`regexp.Match("(have dispelled.*from.*|Nothing to dispel.)", line)` — the
final dot is unescaped, hence any character. -/
def corrPre : M :=
  mAlt (mSeqs [mStr "have dispelled", mStarG isDotCh, mStr "from", mStarG isDotCh])
       (mSeqs [mStr "Nothing to dispel", mCls isDotCh])

/-- Field pattern of `pCorrRemove`:
`You have dispelled (?P<corruption>.*) from (?P<target>.*)\.$` -/
def corrRe : M := mSeqs
  [mStr "You have dispelled ", mGrp "corruption" (mStarG isDotCh),
   mStr " from ", mGrp "target" (mStarG isDotCh), mLit ['.'], mEnd]

/-- `pCorrRemove`: the "Nothing to dispel." form records the self placeholder
as source; the dispel form records target and the corruption name as skill. -/
def pCorrRemove (line : Str) : Except PErr LogEntry :=
  if !goMatch corrPre line then .error .noMatch else
  match extractTimestamp line with
  | .error e => .error (.hard ("error parsing timestamp: " ++ e))
  | .ok (t, msg) =>
    if msg == "Nothing to dispel.".data then
      .ok { RawMessage := line, Timestamp := t, Source := selfplaceholder }
    else
      match findFrom corrRe msg with
      | none => .error (.hard ("Failed to parse as corr removal: <" ++ String.mk msg ++ ">"))
      | some r =>
        .ok { RawMessage := line, Timestamp := t,
              Target := capGet r.1 "target", Skill := capGet r.1 "corruption" }

/-- Prefilter of `pCCBroken`:
`regexp.Match(" released .* from being immobilized!", line)`. -/
def ccPre : M := mSeqs
  [mStr " released ", mStarG isDotCh, mStr " from being immobilized!"]

/-- Field pattern of `pCCBroken`:
`(?P<source>.*) (have|has) released (?P<target>.*) from being immobilized!$` -/
def ccRe : M := mSeqs
  [mGrp "source" (mStarG isDotCh), mLit [' '],
   mAlt (mStr "have") (mStr "has"), mStr " released ",
   mGrp "target" (mStarG isDotCh), mStr " from being immobilized!", mEnd]

/-- `pCCBroken`: a source of `You` is replaced with the self placeholder. -/
def pCCBroken (line : Str) : Except PErr LogEntry :=
  if !goMatch ccPre line then .error .noMatch else
  match extractTimestamp line with
  | .error e => .error (.hard ("error parsing timestamp: " ++ e))
  | .ok (t, msg) =>
    match findFrom ccRe msg with
    | none => .error (.hard ("Failed to parse as cc break: <" ++ String.mk msg ++ ">"))
    | some r =>
      .ok { RawMessage := line, Timestamp := t,
            Target := capGet r.1 "target",
            Source := if capGet r.1 "source" == "You".data then selfplaceholder
                      else capGet r.1 "source" }

/-- The matchers of the dispatcher's registry, flattened in the declaration
order of the source's map literal (Comment, Benefit, Heal, DmgDealt,
TempMoraleLost, Death, Revive, CorruptionRemoved, CcBroken).  The source
iterates a Go map, whose traversal order is unspecified; the order-sensitive
theorems below are therefore stated over an arbitrary matcher list, and this
list is the declaration-order instance used by `parseLogLine`. -/
def defaultParsers : List Parser :=
  [pComment, pBenefit, pHeal,
   pDmg, pAvoid, pMiss, pDmgNoValue,
   pTempMoraleLost, pDefeat, pIncapacitate,
   pRevive, pSuccumb, pCorrRemove, pCCBroken]

/-- The dispatcher loop of `parseLogLine`: every matcher is tried; a match
overwrites the running entry and the traversal continues; a no-match leaves it
unchanged; any other error aborts the whole line at once. -/
def runParsers (line : Str) : List Parser → Option LogEntry → Except String (Option LogEntry)
  | [], acc => .ok acc
  | p :: ps, acc =>
    match p line with
    | .ok e => runParsers line ps (some e)
    | .error .noMatch => runParsers line ps acc
    | .error (.hard m) => .error ("Odd error from parsing: " ++ m)

/-- `parseLogLine` with an explicit traversal order: run the loop, report
`No parsers matched` when no matcher produced an entry, and attach the raw
line to the final entry. -/
def parseLogLineWith (ps : List Parser) (line : Str) : Except String LogEntry :=
  match runParsers line ps none with
  | .error e => .error e
  | .ok none => .error ("No parsers matched: <" ++ String.mk line ++ ">")
  | .ok (some e) => .ok { e with RawMessage := line }

/-- `parseLogLine` of the source, at the declaration-order traversal. -/
def parseLogLine (line : Str) : Except String LogEntry :=
  parseLogLineWith defaultParsers line

/-- The matched entry of a matcher outcome, if any. -/
def resToOption : Except PErr LogEntry → Option LogEntry
  | .ok e => some e
  | .error _ => none

/-- Whether a matcher outcome is a hard failure (any error other than
`ParseNotMatchError`). -/
def isHardR : Except PErr LogEntry → Bool
  | .error (.hard _) => true
  | _ => false

/-- Whether a matcher outcome is a match. -/
def isOkR : Except PErr LogEntry → Bool
  | .ok _ => true
  | _ => false

/-- The last element of `l` if there is one, else `acc`: the value of the
dispatcher's `entry` variable after overwriting it with each element of `l` in
turn, starting from `acc`. -/
def lastOr (l : List LogEntry) (acc : Option LogEntry) : Option LogEntry :=
  match l.getLast? with
  | some e => some e
  | none => acc

/-- The damage line of claim C2 with the hour lowered to a value the timestamp
parser accepts (see `c2_spec_damage_example_rejected` for hour 14). -/
def lineC1 : Str :=
  "07/08 02:22:01 Bob scored a critical hit with Sting on Orc-captain for 1,234 Common damage to Morale.".data

/-- The exact valued damage line of claims C2 and §8 of the specification. -/
def lineC2 : Str :=
  "07/08 14:22:01 Bob scored a critical hit with Sting on Orc-captain for 1,234 Common damage to Morale.".data

/-- A line matched by two different categories' matchers: `pBenefit` (Benefit)
and, because it also contains " defeated " and ends with a period, `pDefeat`
(Death). -/
def lineC3 : Str :=
  "07/08 02:22:01 Bob applied a benefit with Grace on Sam defeated Orc.".data

/-- A valued damage line whose hit carries the "partially blocked" modifier. -/
def lineC4 : Str :=
  "07/08 02:22:01 Bob scored a partially blocked hit with Sting on Orc for 100 Common damage to Morale.".data

/-- A heal line whose captured value field is a bare comma, so that the
numeric normalization fails inside `pHeal`. -/
def lineC5 : Str :=
  "07/08 02:22:01 Cure applied a heal to Bob restoring , points to Morale.".data

/-- A heal line whose captured value field is `,,`: the comma-stripped form is
empty and not numeric. -/
def lineC6 : Str :=
  "07/08 02:22:01 Selfheal applied a heal to Sam restoring ,, points to Morale.".data

/-- The exact self-incapacitation line of claim C8 and §8 of the
specification. -/
def lineC8 : Str :=
  "07/08 14:22:01 You have been incapacitated by misadventure.".data

/-- The self-incapacitation line with the hour lowered to a value the
timestamp parser accepts. -/
def lineC8b : Str :=
  "07/08 02:22:01 You have been incapacitated by misadventure.".data

/-- A comment line (§8 of the specification). -/
def lineC9 : Str := "### session start".data

/-- A no-value hit line whose target, "Orc captain", contains a space and no
second " on ". -/
def lineC10 : Str :=
  "07/08 02:22:01 PM Bob scored a hit with Sting on Orc captain.".data

/-- A no-value hit line whose text after " on " is "a on b": it contains a
space, yet the pattern can re-split it at the second " on ". -/
def lineC10cx : Str :=
  "07/08 02:22:01 PM Bob scored a hit with Sting on a on b.".data

/-- Overwriting with the elements of `e :: l` starting from `acc` is
overwriting with the elements of `l` starting from `e`. -/
theorem lastOr_cons (e : LogEntry) (l : List LogEntry) (acc : Option LogEntry) :
    lastOr (e :: l) acc = lastOr l (some e) := by
  cases l with
  | nil => simp [lastOr]
  | cons x xs =>
    obtain ⟨z, hz⟩ := Option.isSome_iff_exists.mp
      (List.getLast?_isSome.mpr (List.cons_ne_nil x xs))
    simp [lastOr, List.getLast?_cons_cons, hz]

/-- When no matcher in the traversal hard-fails, the dispatcher loop returns
the accumulator overwritten by every matched candidate in traversal order,
that is, the last matched candidate. -/
theorem runParsers_eq_lastOr (line : Str) (ps : List Parser) :
    ∀ acc : Option LogEntry,
      (∀ p ∈ ps, isHardR (p line) = false) →
      runParsers line ps acc =
        .ok (lastOr (ps.filterMap fun p => resToOption (p line)) acc) := by
  induction ps with
  | nil => intro acc _; rfl
  | cons p ps ih =>
    intro acc hnh
    have hp := hnh p (List.mem_cons_self p ps)
    have hps : ∀ q ∈ ps, isHardR (q line) = false :=
      fun q hq => hnh q (List.mem_cons_of_mem p hq)
    cases hr : p line with
    | ok e =>
      have ihr := ih (some e) hps
      simp only [runParsers, hr, ihr, List.filterMap_cons, resToOption]
      rw [lastOr_cons]
    | error pe =>
      cases pe with
      | noMatch =>
        have ihr := ih acc hps
        simp only [runParsers, hr, ihr, List.filterMap_cons, resToOption]
      | hard m => rw [hr] at hp; simp [isHardR] at hp

/-- A hard failure anywhere in the traversal makes the dispatcher loop return
an error: the loop never exits early on success, so it always reaches the
failing matcher, and the failure aborts the line at once. -/
theorem runParsers_hard_error (line : Str) (ps : List Parser) :
    ∀ acc : Option LogEntry,
      (∃ p ∈ ps, isHardR (p line) = true) →
      ∃ msg, runParsers line ps acc = .error msg := by
  induction ps with
  | nil =>
    intro acc hh
    obtain ⟨p, hp, _⟩ := hh
    exact absurd hp (List.not_mem_nil p)
  | cons p ps ih =>
    intro acc hh
    cases hr : p line with
    | ok e =>
      obtain ⟨q, hq, hqh⟩ := hh
      rcases List.mem_cons.mp hq with h | h
      · subst h; rw [hr] at hqh; simp [isHardR] at hqh
      · obtain ⟨msg, hmsg⟩ := ih (some e) ⟨q, h, hqh⟩
        exact ⟨msg, by simp only [runParsers, hr, hmsg]⟩
    | error pe =>
      cases pe with
      | hard m =>
        exact ⟨"Odd error from parsing: " ++ m, by simp only [runParsers, hr]⟩
      | noMatch =>
        obtain ⟨q, hq, hqh⟩ := hh
        rcases List.mem_cons.mp hq with h | h
        · subst h; rw [hr] at hqh; simp [isHardR] at hqh
        · obtain ⟨msg, hmsg⟩ := ih acc ⟨q, h, hqh⟩
          exact ⟨msg, by simp only [runParsers, hr, hmsg]⟩

/-- Claim C1 (code bug): the spec's invariant says a successfully parsed
line's category is never `Unknown`, but only `pComment` ever writes `etype`;
the category keys of the dispatcher's registry map are never copied into the
entry.  This valued damage line parses successfully and the returned event's
category is the `Unknown` zero value. -/
theorem c1_parsed_line_has_unknown_category :
    parseLogLine lineC1 = .ok
      { Timestamp := ⟨7, 8, 2, 22, 1⟩, etype := .Unknown,
        Source := "Bob".data, Target := "Orc-captain".data, Skill := "Sting".data,
        Value := 1234, ValueType := "Common".data, Crit := true, Dev := false,
        Avoided := .UnknownAvoid, RawMessage := lineC1 } := rfl

/-- Claim C2 (code bug): the specification's example damage line has the
24-hour time `14:22:01`, but both `time.Parse` layouts of the source use the
12-hour verb `03` for the hour, so hour 14 is out of range, the timestamp is
rejected, and `parseLogLine` hard-fails on the exact line for which the claim
asserts a successful parse. -/
theorem c2_spec_damage_example_rejected :
    parseLogLine lineC2 =
      .error "Odd error from parsing: error parsing timestamp: invalid timestamp format: 07/08 14:22:01" :=
  rfl

/-- Claim C3 (confirmed): for every traversal order (the source iterates an
unordered Go map) on which no matcher hard-fails and at least one matches, the
dispatcher returns the candidate of the last matching matcher of the
traversal, with the raw line attached. -/
theorem c3_last_match_wins (ps : List Parser) (line : Str)
    (hnh : ∀ p ∈ ps, isHardR (p line) = false)
    (hm : ∃ p ∈ ps, isOkR (p line) = true) :
    ∃ e, ((ps.filterMap fun p => resToOption (p line)).getLast? = some e ∧
      parseLogLineWith ps line = .ok { e with RawMessage := line }) := by
  have hne : (ps.filterMap fun p => resToOption (p line)) ≠ [] := by
    intro hnil
    obtain ⟨p, hp, hok⟩ := hm
    have hnone := List.filterMap_eq_nil_iff.mp hnil p hp
    cases hr : p line with
    | ok e => rw [hr] at hnone; simp [resToOption] at hnone
    | error pe => rw [hr] at hok; simp [isOkR] at hok
  obtain ⟨e, he⟩ := Option.isSome_iff_exists.mp (List.getLast?_isSome.mpr hne)
  refine ⟨e, he, ?_⟩
  unfold parseLogLineWith
  rw [runParsers_eq_lastOr line ps none hnh]
  simp [lastOr, he]

/-- Witness for claim C3 at a concrete input: on `lineC3` both `pBenefit`
(traversed earlier) and `pDefeat` (traversed later) match, no matcher
hard-fails, and the returned event is `pDefeat`'s candidate — the Death
category silently wins over Benefit. -/
theorem c3_last_match_wins_witness :
    (∀ p ∈ defaultParsers, isHardR (p lineC3) = false) ∧
    (∃ p ∈ defaultParsers, isOkR (p lineC3) = true) ∧
    (∃ e, ((defaultParsers.filterMap fun p => resToOption (p lineC3)).getLast? = some e ∧
      parseLogLineWith defaultParsers lineC3 = .ok { e with RawMessage := lineC3 })) ∧
    parseLogLine lineC3 = .ok
      { Timestamp := ⟨7, 8, 2, 22, 1⟩, etype := .Unknown,
        Source := "Bob applied a benefit with Grace on Sam".data,
        Target := "Orc".data, RawMessage := lineC3 } := by
  have h1 : ∀ p ∈ defaultParsers, isHardR (p lineC3) = false := by decide
  have h2 : ∃ p ∈ defaultParsers, isOkR (p lineC3) = true := by decide
  exact ⟨h1, h2, c3_last_match_wins defaultParsers lineC3 h1 h2, rfl⟩

/-- Claim C4 (code bug): on a "partially blocked hit" valued damage line the
spec says `avoidance = Blocked`, but the source's `switch` reads the `crit`
capture (which can only be `critical`, `devastating` or empty) instead of the
`avoided` capture, so the event is returned with the `UnknownAvoid` (None)
zero value. -/
theorem c4_blocked_hit_avoidance_not_set :
    parseLogLine lineC4 = .ok
      { Timestamp := ⟨7, 8, 2, 22, 1⟩, etype := .Unknown,
        Source := "Bob".data, Target := "Orc".data, Skill := "Sting".data,
        Value := 100, ValueType := "Common".data, Crit := false, Dev := false,
        Avoided := .UnknownAvoid, RawMessage := lineC4 } := rfl

/-- Claim C5 (confirmed): whenever some matcher of the traversal returns a
hard failure, the dispatcher returns an error for the line and no event — the
failure is never absorbed into a no-match, and no other matcher's candidate is
returned.  Stated over an arbitrary traversal order, since the source iterates
an unordered Go map. -/
theorem c5_hard_failure_propagates (ps : List Parser) (line : Str)
    (hh : ∃ p ∈ ps, isHardR (p line) = true) :
    ∃ msg, parseLogLineWith ps line = .error msg := by
  obtain ⟨msg, hmsg⟩ := runParsers_hard_error line ps none hh
  exact ⟨msg, by simp only [parseLogLineWith, hmsg]⟩

/-- Witness for claim C5 at a concrete input: on `lineC5` the heal matcher
recognizes the phrase but its value field does not normalize, a hard failure,
and the dispatcher rejects the line. -/
theorem c5_hard_failure_propagates_witness :
    (∃ p ∈ defaultParsers, isHardR (p lineC5) = true) ∧
    ∃ msg, parseLogLineWith defaultParsers lineC5 = .error msg := by
  have h : ∃ p ∈ defaultParsers, isHardR (p lineC5) = true := by decide
  exact ⟨h, c5_hard_failure_propagates defaultParsers lineC5 h⟩

/-- Claim C6 (confirmed): the numeric normalization maps `10,000` and `10000`
to the integer 10000 and fails on `10.5` and `abc`; inside a matcher the
failure is a hard error (here `pHeal` on a line whose captured value `,,`
strips to the empty string), which the dispatcher propagates as an error
rather than a no-match. -/
theorem c6_numeric_normalization :
    normalizeValue "10,000".data = some 10000 ∧
    normalizeValue "10000".data = some 10000 ∧
    normalizeValue "10.5".data = none ∧
    normalizeValue "abc".data = none ∧
    pHeal lineC6 = .error (.hard "value not convertable to int") ∧
    parseLogLine lineC6 = .error "Odd error from parsing: value not convertable to int" :=
  ⟨rfl, rfl, rfl, rfl, rfl, rfl⟩

/-- Claim C7 (confirmed): for every line body, the line with the bracketed
timestamp token `[07/08 02:22:01 PM]` and the otherwise identical line without
brackets parse to the same timestamp value (02 PM, i.e. hour 14) and the same
remaining text, namely the body itself. -/
theorem c7_bracketed_timestamp_equiv (body : Str) :
    extractTimestamp (('[' :: "07/08 02:22:01 PM".data) ++ ']' :: ' ' :: body) =
      .ok (⟨7, 8, 14, 22, 1⟩, body) ∧
    extractTimestamp ("07/08 02:22:01 PM".data ++ ' ' :: body) =
      .ok (⟨7, 8, 14, 22, 1⟩, body) := by
  constructor <;>
    simp [extractTimestamp, tsRe, mSeqs, mSeq, mEps, mGrp, mOpt, mAlt, mLit, mStr,
          mCls, mStarG, mPlusG, d2, greedySplits, isPfx, findFrom, capGet,
          timeParseAmPm, timeParsePlain, getnum2, timeFieldsOk, daysInMonth,
          isDigitCh, isSpaceCh]

/-- Witness for claim C7 at a concrete body. -/
theorem c7_bracketed_timestamp_equiv_witness :
    extractTimestamp "[07/08 02:22:01 PM] Bob hits.".data =
      .ok (⟨7, 8, 14, 22, 1⟩, "Bob hits.".data) ∧
    extractTimestamp "07/08 02:22:01 PM Bob hits.".data =
      .ok (⟨7, 8, 14, 22, 1⟩, "Bob hits.".data) :=
  c7_bracketed_timestamp_equiv "Bob hits.".data

/-- Claim C8 (code bug): the specification's exact self-incapacitation line
has the 24-hour time `14:22:01`, which the 12-hour `time.Parse` layouts
reject, so `parseLogLine` hard-fails on it instead of succeeding; with an hour
the timestamp parser accepts, the rest of the claim is exactly what the code
does — `target` is the self placeholder and `source` is empty. -/
theorem c8_self_incapacitation_example_rejected :
    parseLogLine lineC8 =
      .error "Odd error from parsing: error parsing timestamp: invalid timestamp format: 07/08 14:22:01" ∧
    parseLogLine lineC8b = .ok
      { Timestamp := ⟨7, 8, 2, 22, 1⟩, etype := .Unknown, Source := [],
        Target := selfplaceholder, RawMessage := lineC8b } :=
  ⟨rfl, rfl⟩

/-- Claim C9 (confirmed): on every line on which `parseLogLine` succeeds, the
returned event's `RawMessage` is the original input line verbatim — the
dispatcher overwrites the field with the unmodified line just before
returning. -/
theorem c9_rawline_roundtrip (line : Str) (e : LogEntry)
    (h : parseLogLine line = .ok e) : e.RawMessage = line := by
  unfold parseLogLine parseLogLineWith at h
  cases hr : runParsers line defaultParsers none with
  | error m => rw [hr] at h; simp at h
  | ok o =>
    cases o with
    | none => rw [hr] at h; simp at h
    | some x =>
      rw [hr] at h
      simp only [Except.ok.injEq] at h
      rw [← h]

/-- Witness for claim C9 at a concrete input: the comment line parses and its
event carries the line verbatim. -/
theorem c9_rawline_roundtrip_witness :
    ({ etype := .Comment, RawMessage := lineC9 } : LogEntry).RawMessage = lineC9 :=
  c9_rawline_roundtrip lineC9 { etype := .Comment, RawMessage := lineC9 } rfl

/-- Claim C10 counterexample: the claim quantifies over every no-value hit
line whose target after " on " contains a space, but when that text contains a
second " on " (here "a on b") the pattern re-splits it — skill becomes
"Sting on a" and target "b" — so `pDmgNoValue` matches and `parseLogLine`
succeeds instead of failing. -/
theorem c10_reparsed_multiword_target_matches :
    pDmgNoValue lineC10cx = .ok
      { Timestamp := ⟨7, 8, 14, 22, 1⟩, etype := .Unknown, Source := "Bob".data,
        Skill := "Sting on a".data, Target := "b".data, Value := 0,
        RawMessage := lineC10cx } ∧
    parseLogLine lineC10cx = .ok
      { Timestamp := ⟨7, 8, 14, 22, 1⟩, etype := .Unknown, Source := "Bob".data,
        Skill := "Sting on a".data, Target := "b".data, Value := 0,
        RawMessage := lineC10cx } :=
  ⟨rfl, rfl⟩

/-- Claim C10 as amended (space-containing target with no second " on ", as in
the claim's own example): the `(?P<target>[^ ]+).$` tail of `pDmgNoValue`
cannot match a target containing a space, the matcher returns a hard parse
failure rather than a no-match, and `parseLogLine` fails on the line. -/
theorem c10_multiword_target_hard_failure :
    pDmgNoValue lineC10 =
      .error (.hard ("Failed to parse as dmg no value: <" ++ String.mk lineC10 ++ ">")) ∧
    parseLogLine lineC10 =
      .error ("Odd error from parsing: Failed to parse as dmg no value: <" ++ String.mk lineC10 ++ ">") :=
  ⟨rfl, rfl⟩

end CombatLog

